import Mathlib

/-!
Verification development for the AllOneCustomerAI conversation engine.

The JavaScript sources are embedded shallowly:

* `Helpers.sanitizeText` (src/unnamed/part_000, lines 73-81);
* `AIService` (second copy in src/src/config/config-loader.js, lines 619-1280):
  `detectLanguage`, `getUserLanguage`, `setUserLanguage`, `getLocalizedMessage`,
  `getFallbackResponse`, `processSpecialCommands`, `getContextualResponse`,
  `generateResponse`;
* `DatabaseManager` (src/src/database/database-manager.js): users,
  conversations, sessions and analytics, with `saveMessage`, `createUser`,
  `createSession`, `getActiveSession`, `closeSession`;
* the language-pack JSON (src/unnamed/part_001, lines 450-487).

Strings are modelled as Lean `String`; the handful of JavaScript string
operations the code uses (`trim`, `toLowerCase`, `includes`, `split(' ')`,
`startsWith`, `replace(/\s+/g, ' ')`, `replace(new RegExp(..., 'g'), v)`,
`substring`, word-boundary regex tests) are implemented over `List Char`
below, restricted to the ASCII alphabet that the code's own marker lexicons
and commands use.  Timestamps (`new Date().toISOString()`, `Date.now()`) are
modelled as a single `now : Nat` (milliseconds) threaded through each turn;
the locale rendering of `lastSeen` in the `/status` reply is modelled as the
decimal rendering of that number.  Fallible JavaScript evaluations
(`undefined` property accesses that would raise `TypeError`) are modelled
with `Option`/`Except`.
-/

set_option maxRecDepth 16000

namespace ACAI

/-- JavaScript whitespace class `\s` (the members relevant to ASCII/Latin-1
text, plus the BOM): space, tab, LF, VT, FF, CR, NBSP, FEFF. -/
def isJsWs (c : Char) : Bool :=
  c = ' ' || c = '\t' || c = '\n' || c.val = 0x0b || c.val = 0x0c || c = '\r' ||
  c.val = 0xa0 || c.val = 0xfeff

/-- Characters removed by `sanitizeText`: the ranges `\u0000-\u001F` and
`\u007F-\u009F`. -/
def isJsControl (c : Char) : Bool :=
  c.val ≤ 0x1f || (0x7f ≤ c.val && c.val ≤ 0x9f)

/-- `String.prototype.trim`, on a character list. -/
def jsTrim (t : List Char) : List Char :=
  ((t.dropWhile isJsWs).reverse.dropWhile isJsWs).reverse

/-- `String.prototype.toLowerCase` on the ASCII range. -/
def jsLower (t : List Char) : List Char :=
  t.map Char.toLower

/-- `String.prototype.toUpperCase` on the ASCII range. -/
def jsUpper (t : List Char) : List Char :=
  t.map Char.toUpper

/-- `text.toLowerCase().trim()` as a `String` transformer. -/
def jsLowerTrim (s : String) : String :=
  String.mk (jsTrim (jsLower s.data))

/-- `String.prototype.split(sep)` for a one-character separator. -/
def splitOnCharAux (sep : Char) : List Char → List Char → List (List Char)
  | [], acc => [acc.reverse]
  | c :: rest, acc =>
    if c = sep then acc.reverse :: splitOnCharAux sep rest []
    else splitOnCharAux sep rest (c :: acc)

/-- `command.split(' ')`. -/
def splitOnSpace (t : List Char) : List (List Char) :=
  splitOnCharAux ' ' t []

/-- Word characters of the regex `\b` boundary: `[A-Za-z0-9_]`. -/
def isWordChar (c : Char) : Bool :=
  ('a' ≤ c && c ≤ 'z') || ('A' ≤ c && c ≤ 'Z') || ('0' ≤ c && c ≤ '9') || c = '_'

/-- The word `w` occurs in `t` at index `i` with `\b` boundaries on both
sides. -/
def hasWordAt (t w : List Char) (i : Nat) : Bool :=
  w.isPrefixOf (t.drop i) &&
  (i = 0 || !isWordChar (t.getD (i - 1) ' ')) &&
  (match t.drop (i + w.length) with
   | [] => true
   | c :: _ => !isWordChar c)

/-- `new RegExp("\\b(w1|w2|...)\\b").test(t)`: some alternative occurs as a
whole word somewhere in `t`. -/
def hasAnyWholeWord (t : List Char) (ws : List String) : Bool :=
  ws.any fun w => (List.range t.length).any fun i => hasWordAt t w.data i

/-- `String.prototype.includes`: `pat` occurs contiguously inside `t`. -/
def jsIncludes (t pat : List Char) : Bool :=
  (List.range (t.length + 1)).any fun i => pat.isPrefixOf (t.drop i)

/-- Marker-word score: for each lexicon entry contained in the text as a
substring (`String.prototype.includes`), add the entry's length. -/
def wordScore (t : List Char) (ws : List String) : Nat :=
  ws.foldl (fun acc w => if jsIncludes t w.data then acc + w.length else acc) 0

/-- The English marker lexicon of `AIService.detectLanguage`
(config-loader.js lines 1005-1011). -/
def englishWords : List String :=
  ["hello", "hi", "hey", "good morning", "good afternoon", "good evening",
   "thank you", "thanks", "please", "help", "how are you", "what", "where",
   "when", "why", "how", "can you", "could you", "would you", "i need",
   "i want", "i have", "problem", "issue", "question", "information",
   "service", "product", "price", "cost", "buy", "purchase", "order"]

/-- The Indonesian marker lexicon of `AIService.detectLanguage`
(config-loader.js lines 1014-1021). -/
def indonesianWords : List String :=
  ["halo", "hai", "selamat pagi", "selamat siang", "selamat sore", "selamat malam",
   "terima kasih", "makasih", "tolong", "bantuan", "apa kabar", "apa", "dimana",
   "kapan", "mengapa", "kenapa", "bagaimana", "gimana", "bisa", "bisakah",
   "saya perlu", "saya mau", "saya punya", "masalah", "pertanyaan", "informasi",
   "layanan", "produk", "harga", "beli", "pesan", "order", "dan", "atau",
   "dengan", "untuk", "dari", "ke", "di", "pada", "yang", "ini", "itu"]

/-- Alternatives of the English function-word regex (line 1041). -/
def englishFunctionWords : List String :=
  ["the", "and", "or", "but", "in", "on", "at", "to", "for", "of", "with", "by"]

/-- Alternatives of the Indonesian function-word regex (line 1046). -/
def indonesianFunctionWords : List String :=
  ["yang", "dan", "atau", "dengan", "untuk", "dari", "ke", "di", "pada", "ini", "itu"]

/-- `cleanText` of `detectLanguage`: `text.toLowerCase().trim()`. -/
def cleanTextOf (text : String) : List Char :=
  jsTrim (jsLower text.data)

/-- `englishScore` accumulated by `detectLanguage` on the cleaned text. -/
def englishScoreOf (t : List Char) : Nat :=
  wordScore t englishWords + (if hasAnyWholeWord t englishFunctionWords then 5 else 0)

/-- `indonesianScore` accumulated by `detectLanguage` on the cleaned text. -/
def indonesianScoreOf (t : List Char) : Nat :=
  wordScore t indonesianWords + (if hasAnyWholeWord t indonesianFunctionWords then 5 else 0)

/-- `AIService.detectLanguage` (config-loader.js lines 999-1058).  `none`
models the `null` (indeterminate) result. -/
def detectLanguage (text : String) : Option String :=
  if text = "" then none
  else if (jsTrim text.data).length < 3 then none
  else
    let cleanText := cleanTextOf text
    let englishScore := englishScoreOf cleanText
    let indonesianScore := indonesianScoreOf cleanText
    if englishScore > indonesianScore ∧ englishScore > 3 then some "en"
    else if indonesianScore > englishScore ∧ indonesianScore > 3 then some "id"
    else none

/-! ## Association lists

JavaScript object maps (`data.users`, `data.conversations`, `data.sessions`,
`languageData.messages`, ...) are modelled as insertion-ordered association
lists: assignment to an existing key replaces the value in place, assignment
to a fresh key appends. -/

/-- Read `obj[k]`; `none` models `undefined`. -/
def alGet {α : Type} (l : List (String × α)) (k : String) : Option α :=
  match l with
  | [] => none
  | p :: rest => if p.1 = k then some p.2 else alGet rest k

/-- Write `obj[k] = v` (replace in place, or append when fresh). -/
def alSet {α : Type} (l : List (String × α)) (k : String) (v : α) : List (String × α) :=
  match l with
  | [] => [(k, v)]
  | p :: rest => if p.1 = k then (k, v) :: rest else p :: alSet rest k v

/-! ## The persistent store (`DatabaseManager`, database-manager.js) -/

/-- A stored message (`saveMessage`'s `messageData`; the `type: 'text'` tag is
constant and omitted). -/
structure Message where
  id : String
  content : String
  isFromUser : Bool
  timestamp : Nat
  deriving DecidableEq

/-- One `data.conversations[phoneNumber]` record. -/
structure Conversation where
  phoneNumber : String
  messages : List Message
  createdAt : Nat
  lastMessageAt : Nat
  deriving DecidableEq

/-- One `data.users[phoneNumber]` record.  `prefLanguage` models
`preferences.language` (the only preference the code reads or writes). -/
structure User where
  phoneNumber : String
  name : String
  createdAt : Nat
  lastSeen : Nat
  messageCount : Nat
  prefLanguage : Option String
  deriving DecidableEq

/-- One `data.sessions[sessionId]` record (the untouched `context : {}` field
is omitted). -/
structure Session where
  id : String
  phoneNumber : String
  createdAt : Nat
  lastActivity : Nat
  isActive : Bool
  deriving DecidableEq

/-- One `analytics.dailyStats[today]` bucket; `users` models the JS `Set` as
its insertion-ordered list of distinct elements. -/
structure DailyStat where
  messages : Nat
  users : List String
  deriving DecidableEq

/-- `data.analytics`.  Daily buckets are keyed by the UTC day number
`now / msPerDay` (the JS keys by `toISOString().split('T')[0]`, which
identifies the same UTC day). -/
structure Analytics where
  totalMessages : Nat
  totalUsers : Nat
  dailyStats : List (Nat × DailyStat)
  deriving DecidableEq

/-- The whole JSON document held by `DatabaseManager.data`. -/
structure DB where
  users : List (String × User)
  conversations : List (String × Conversation)
  sessions : List (String × Session)
  analytics : Analytics
  deriving DecidableEq

/-- The fresh store built by the `DatabaseManager` constructor. -/
def dbEmpty : DB :=
  { users := [], conversations := [], sessions := [],
    analytics := { totalMessages := 0, totalUsers := 0, dailyStats := [] } }

def msPerDay : Nat := 86400000

/-- `DatabaseManager.getUser`. -/
def getUser (db : DB) (phoneNumber : String) : Option User :=
  alGet db.users phoneNumber

/-- `DatabaseManager.createUser` called with no `userData` (as
`generateResponse` does): defaults only. -/
def createUser (db : DB) (phoneNumber : String) (now : Nat) : User × DB :=
  let user : User :=
    { phoneNumber := phoneNumber, name := "Unknown", createdAt := now,
      lastSeen := now, messageCount := 0, prefLanguage := none }
  let users1 := alSet db.users phoneNumber user
  (user,
   { db with users := users1,
             analytics := { db.analytics with totalUsers := users1.length } })

/-- Add to a JS `Set` (insertion-ordered, duplicates ignored). -/
def setAdd (l : List String) (x : String) : List String :=
  if x ∈ l then l else l ++ [x]

/-- Bump the `dailyStats[today]` bucket inside `saveMessage`. -/
def bumpDaily (stats : List (Nat × DailyStat)) (day : Nat) (phoneNumber : String) :
    List (Nat × DailyStat) :=
  match stats with
  | [] => [(day, { messages := 1, users := [phoneNumber] })]
  | p :: rest =>
    if p.1 = day then
      (day, { messages := p.2.messages + 1, users := setAdd p.2.users phoneNumber }) :: rest
    else p :: bumpDaily rest day phoneNumber

/-- `DatabaseManager.saveMessage` (lines 89-129): append the message to the
conversation (creating it when absent), bump `analytics.totalMessages` and the
daily bucket and, **whenever the user record exists — for user-authored and
assistant-authored messages alike** — increment `messageCount` and refresh
`lastSeen`. -/
def saveMessage (db : DB) (phoneNumber message : String) (isFromUser : Bool)
    (now : Nat) : Message × DB :=
  let conv :=
    (alGet db.conversations phoneNumber).getD
      { phoneNumber := phoneNumber, messages := [], createdAt := now,
        lastMessageAt := now }
  let messageData : Message :=
    { id := toString now, content := message, isFromUser := isFromUser,
      timestamp := now }
  let conv1 := { conv with messages := conv.messages ++ [messageData],
                           lastMessageAt := now }
  let analytics1 :=
    { db.analytics with
        totalMessages := db.analytics.totalMessages + 1,
        dailyStats := bumpDaily db.analytics.dailyStats (now / msPerDay) phoneNumber }
  let users1 :=
    match alGet db.users phoneNumber with
    | some u =>
      alSet db.users phoneNumber
        { u with messageCount := u.messageCount + 1, lastSeen := now }
    | none => db.users
  (messageData,
   { db with conversations := alSet db.conversations phoneNumber conv1,
             analytics := analytics1, users := users1 })

/-- `Array.prototype.slice(-limit)`: the last `limit` elements. -/
def takeLast {α : Type} (limit : Nat) (l : List α) : List α :=
  l.drop (l.length - limit)

/-- `DatabaseManager.getConversation`. -/
def getConversation (db : DB) (phoneNumber : String) (limit : Nat) :
    Option Conversation :=
  (alGet db.conversations phoneNumber).map fun conv =>
    { conv with messages := takeLast limit conv.messages }

/-- `DatabaseManager.getConversationHistory`. -/
def getConversationHistory (db : DB) (phoneNumber : String) (limit : Nat) :
    List Message :=
  match getConversation db phoneNumber limit with
  | some conv => conv.messages
  | none => []

/-- All persisted messages of one user, newest last. -/
def messagesOf (db : DB) (phoneNumber : String) : List Message :=
  match alGet db.conversations phoneNumber with
  | some conv => conv.messages
  | none => []

/-- `DatabaseManager.createSession` called with no `sessionData` (the id is
`phoneNumber + '_' + Date.now()`).  Note: it only **adds** a record with
`isActive: true`; no existing session is touched. -/
def createSession (db : DB) (phoneNumber : String) (now : Nat) : Session × DB :=
  let sessionId := phoneNumber ++ "_" ++ toString now
  let session : Session :=
    { id := sessionId, phoneNumber := phoneNumber, createdAt := now,
      lastActivity := now, isActive := true }
  (session, { db with sessions := alSet db.sessions sessionId session })

/-- `DatabaseManager.getActiveSession`: among this user's sessions with
`isActive`, the one with the greatest `lastActivity` (the JS sorts descending
with a stable sort, so ties keep the earlier record). -/
def getActiveSession (db : DB) (phoneNumber : String) : Option Session :=
  ((db.sessions.map Prod.snd).filter
      fun s => s.phoneNumber = phoneNumber ∧ s.isActive = true).foldl
    (fun best s =>
      match best with
      | none => some s
      | some b => if s.lastActivity > b.lastActivity then some s else some b)
    none

/-- `DatabaseManager.closeSession`: `updateSession(sessionId,
{ isActive: false })`, which also refreshes `lastActivity`. -/
def closeSession (db : DB) (sessionId : String) (now : Nat) : DB :=
  match alGet db.sessions sessionId with
  | some s =>
    let s1 : Session := { s with isActive := false, lastActivity := now }
    { db with sessions := alSet db.sessions sessionId s1 }
  | none => db

/-! ## Language packs (src/unnamed/part_001, lines 450-487) -/

/-- One per-language bundle: display name, code, system prompt, and the
message-template map. -/
structure LangPack where
  name : String
  code : String
  systemPrompt : String
  messages : List (String × String)
  deriving DecidableEq

/-- The `id` (Bahasa Indonesia) pack, transcribed from the JSON. -/
def idPack : LangPack :=
  { name := "Bahasa Indonesia", code := "id",
    systemPrompt := "Anda adalah asisten AI customer service yang profesional dan membantu. Peran Anda adalah membantu pelanggan dengan pertanyaan mereka, memberikan informasi yang akurat, dan memastikan pengalaman pelanggan yang excellent. Selalu merespons dalam bahasa Indonesia kecuali diminta sebaliknya. Bersikaplah sopan, empati, dan berorientasi pada solusi dalam respons Anda.",
    messages :=
      [("welcome", "Halo! Selamat datang di layanan customer service AI kami. Saya siap membantu Anda dengan pertanyaan atau kebutuhan Anda. Ada yang bisa saya bantu hari ini?"),
       ("fallback", "Maaf, saya tidak sepenuhnya memahami pertanyaan Anda. Bisakah Anda menjelaskan lebih detail atau menggunakan kata-kata yang berbeda? Saya akan berusaha membantu Anda dengan lebih baik."),
       ("goodbye", "Terima kasih telah menghubungi kami. Semoga hari Anda menyenangkan! Jangan ragu untuk menghubungi kami lagi jika ada yang bisa kami bantu."),
       ("error", "Maaf, terjadi kesalahan teknis. Tim kami sedang memperbaiki masalah ini. Silakan coba lagi dalam beberapa menit atau hubungi customer service kami langsung."),
       ("reset", "Sesi percakapan telah direset. Silakan mulai percakapan baru."),
       ("languageChanged", "Bahasa telah diubah ke Bahasa Indonesia. Saya akan merespons dalam bahasa Indonesia mulai sekarang."),
       ("languageList", "🌐 *Pilihan Bahasa*\n\nBahasa yang tersedia:\n• /language id - Bahasa Indonesia\n• /language en - English\n\nKirim perintah di atas untuk mengubah bahasa."),
       ("help", "🤖 *Bantuan AllOneCustomerAI*\n\nPerintah yang tersedia:\n• /help - Menampilkan pesan bantuan ini\n• /info - Informasi perusahaan\n• /reset - Reset sesi percakapan\n• /status - Lihat status akun Anda\n• /provider - Informasi AI provider\n• /language - Pilih bahasa\n\nAnda juga dapat mengirim pesan biasa untuk berbicara dengan AI customer service kami."),
       ("status", "Status Anda:\nNama: \x7bname\x7d\nTotal Pesan: \x7bmessageCount\x7d\nTerakhir Aktif: \x7blastSeen\x7d\nBahasa: \x7blanguage\x7d\nAI Provider: \x7bprovider\x7d"),
       ("userNotFound", "Informasi pengguna tidak ditemukan.")] }

/-- The `en` (English) pack, transcribed from the JSON (it additionally has
`greeting` and `gratitude` templates that the `id` pack lacks). -/
def enPack : LangPack :=
  { name := "English", code := "en",
    systemPrompt := "You are a professional and helpful AI customer service assistant. Your role is to assist customers with their inquiries, provide accurate information, and ensure excellent customer experience. Always respond in English unless specifically requested otherwise. Be polite, empathetic, and solution-oriented in your responses.",
    messages :=
      [("welcome", "Hello! Welcome to our AI customer service. I\x27m ready to help you with your questions or needs. How can I assist you today?"),
       ("fallback", "I\x27m sorry, I don\x27t fully understand your question. Could you please explain in more detail or use different words? I\x27ll try to help you better."),
       ("goodbye", "Thank you for contacting us. Have a great day! Don\x27t hesitate to contact us again if there\x27s anything we can help with."),
       ("error", "Sorry, a technical error occurred. Our team is fixing this issue. Please try again in a few minutes or contact our customer service directly."),
       ("reset", "Conversation session has been reset. Please start a new conversation."),
       ("languageChanged", "Language has been changed to English. I will respond in English from now on."),
       ("languageList", "🌐 *Language Options*\n\nAvailable languages:\n• /language id - Bahasa Indonesia\n• /language en - English\n\nSend the command above to change language."),
       ("help", "🤖 *AllOneCustomerAI Help*\n\nAvailable commands:\n• /help - Show this help message\n• /info - Company information\n• /reset - Reset conversation session\n• /status - View your account status\n• /provider - AI provider information\n• /language - Choose language\n\nYou can also send regular messages to chat with our AI customer service."),
       ("greeting", "Hello! Welcome to \x7bcompanyName\x7d. I am an AI assistant ready to help you. How can I assist you today?"),
       ("gratitude", "You\x27re welcome! I\x27m glad I could help you. If you have any other questions, feel free to ask."),
       ("status", "Your Status:\nName: \x7bname\x7d\nTotal Messages: \x7bmessageCount\x7d\nLast Active: \x7blastSeen\x7d\nLanguage: \x7blanguage\x7d\nAI Provider: \x7bprovider\x7d"),
       ("userNotFound", "User information not found.")] }

/-- The full language-pack map of the repository. -/
def languagesCfg : List (String × LangPack) :=
  [("id", idPack), ("en", enPack)]

/-! ## The `AIService` configuration -/

/-- The configuration the second `AIService` (config-loader.js line 625)
reads: provider/model, the company-information block consumed by
`getCompanyInfo` and by placeholder substitution, the default language and
the language packs. -/
structure AIService where
  provider : String
  model : String
  companyName : String
  companyDescription : String
  companyWorkingHours : String
  companyEmail : String
  companyPhone : String
  companyWebsite : String
  defaultLanguage : String
  languages : List (String × LangPack)
  deriving DecidableEq

/-- A deployment-shaped service: the packs are the repository's JSON and the
default language is one of the configured codes (`DEFAULT_LANGUAGE`, which
defaults to `id`). -/
def WFService (svc : AIService) : Prop :=
  svc.languages = languagesCfg ∧
  (svc.defaultLanguage = "id" ∨ svc.defaultLanguage = "en")

instance (svc : AIService) : Decidable (WFService svc) := by
  unfold WFService; infer_instance

/-- The concrete service used by the closed evaluations: default
configuration values of config-loader.js (provider `gemini`, default
language `id`) with the default company block. -/
def svc0 : AIService :=
  { provider := "gemini", model := "gemini-2.0-flash-exp",
    companyName := "Your Company",
    companyDescription := "We provide excellent customer service",
    companyWorkingHours := "Monday - Friday, 9 AM - 5 PM",
    companyEmail := "info@yourcompany.com", companyPhone := "+62xxxxxxxxxx",
    companyWebsite := "https://yourcompany.com",
    defaultLanguage := "id", languages := languagesCfg }

/-! ## Language resolution and localized messages -/

/-- `AIService.setUserLanguage` (config-loader.js lines 1060-1074): when the
user exists, write `preferences.language` through `updateUser`, which also
refreshes `lastSeen`; otherwise do nothing. -/
def setUserLanguage (db : DB) (phoneNumber languageCode : String) (now : Nat) : DB :=
  match getUser db phoneNumber with
  | some u =>
    let u1 : User := { u with prefLanguage := some languageCode, lastSeen := now }
    { db with users := alSet db.users phoneNumber u1 }
  | none => db

/-- JavaScript truthiness of an optional string field
(`user.preferences.language`): defined and non-empty. -/
def jsTruthyStr : Option String → Bool
  | some s => s ≠ ""
  | none => false

/-- `AIService.getUserLanguage` (config-loader.js lines 1191-1211).  Returns
the resolved code together with the (possibly updated) store: an explicit
truthy preference wins; otherwise, when `messageText` is truthy and detection
returns a code **different from the default language**, that code is saved as
the preference and returned; in every other case the default language is
returned and nothing is written. -/
def getUserLanguage (svc : AIService) (db : DB) (phoneNumber : String)
    (messageText : Option String) (now : Nat) : String × DB :=
  let stored := (getUser db phoneNumber).bind User.prefLanguage
  if jsTruthyStr stored then (stored.getD "", db)
  else
    match messageText with
    | some text =>
      if text ≠ "" then
        match detectLanguage text with
        | some detected =>
          if detected ≠ svc.defaultLanguage then
            (detected, setUserLanguage db phoneNumber detected now)
          else (svc.defaultLanguage, db)
        | none => (svc.defaultLanguage, db)
      else (svc.defaultLanguage, db)
    | none => (svc.defaultLanguage, db)

/-- The language `getLocalizedMessage` resolves: `getUserLanguage` called
without message text, which never touches the store and never reads the
clock. -/
def resolvedLanguage (svc : AIService) (db : DB) (phoneNumber : String) : String :=
  let stored := (getUser db phoneNumber).bind User.prefLanguage
  if jsTruthyStr stored then stored.getD "" else svc.defaultLanguage

/-- `this.languages[userLanguage] || this.languages[this.defaultLanguage]`;
`none` models both lookups yielding `undefined` (the subsequent `.messages`
access would throw). -/
def resolvedPack (svc : AIService) (db : DB) (phoneNumber : String) : Option LangPack :=
  match alGet svc.languages (resolvedLanguage svc db phoneNumber) with
  | some p => some p
  | none => alGet svc.languages svc.defaultLanguage

/-- `a || b` on string-valued lookups: an empty string is falsy. -/
def jsOrStr (a b : Option String) : Option String :=
  match a with
  | some s => if s = "" then b else some s
  | none => b

/-- Replace every occurrence of `pat` in the text by `rep`, scanning left to
right without rescanning replacements — the semantics of
`String.prototype.replace` with a global literal-pattern regex.  The fuel is
the text length; each step consumes at least one character. -/
def replaceAllAux (pat rep : List Char) : Nat → List Char → List Char
  | _, [] => []
  | 0, t => t
  | Nat.succ fuel, c :: rest =>
    if pat ≠ [] ∧ pat.isPrefixOf (c :: rest) then
      rep ++ replaceAllAux pat rep fuel ((c :: rest).drop pat.length)
    else c :: replaceAllAux pat rep fuel rest

/-- `message.replace(new RegExp('{key}', 'g'), value)` over all placeholder
pairs in order (the JS iterates `Object.entries` with a `for ... of` loop,
each replacement applying to the result of the previous one). -/
def substAll (pairs : List (String × String)) (tmpl : String) : String :=
  pairs.foldl
    (fun msg kv =>
      let pat := ("\x7b" ++ kv.1 ++ "\x7d").data
      String.mk (replaceAllAux pat kv.2.data msg.data.length msg.data))
    tmpl

/-- `const defaultPlaceholders = { companyName: this.companyInfo.name,
...placeholders }`: `companyName` sits first in iteration order; a
`companyName` entry inside `placeholders` overrides its value but not its
position. -/
def mergedPlaceholders (svc : AIService) (placeholders : List (String × String)) :
    List (String × String) :=
  ("companyName", (alGet placeholders "companyName").getD svc.companyName) ::
    placeholders.filter fun p => p.1 ≠ "companyName"

/-- `AIService.getLocalizedMessage` (config-loader.js lines 1220-1238).
`none` models the `TypeError` raised when both pack lookups (or both template
lookups) yield `undefined`; under `WFService` this never happens. -/
def getLocalizedMessage (svc : AIService) (db : DB) (phoneNumber messageKey : String)
    (placeholders : List (String × String)) : Option String :=
  (resolvedPack svc db phoneNumber).bind fun pack =>
    (jsOrStr (alGet pack.messages messageKey) (alGet pack.messages "fallback")).map
      fun tmpl => substAll (mergedPlaceholders svc placeholders) tmpl

/-- The three hardcoded Indonesian fallback strings of
`getFallbackResponse` (used only when it is called without a phone number). -/
def fallbackMessages : List String :=
  ["Maaf, saya sedang mengalami gangguan teknis. Silakan coba lagi dalam beberapa saat.",
   "Mohon maaf atas ketidaknyamanan ini. Tim teknis kami sedang memperbaiki sistem.",
   "Saya tidak dapat memproses permintaan Anda saat ini. Silakan hubungi customer service kami langsung."]

/-- `AIService.getFallbackResponse` (config-loader.js lines 917-930): with a
truthy phone number, the localized `fallback` template; otherwise one of
three hardcoded strings picked by `Math.random()`, modelled by the extra
`rand` argument. -/
def getFallbackResponse (svc : AIService) (db : DB) (phoneNumber : String)
    (rand : Nat) : Option String :=
  if phoneNumber ≠ "" then getLocalizedMessage svc db phoneNumber "fallback" []
  else some ((fallbackMessages.get? (rand % 3)).getD "")

/-! ## The command interpreter and the turn -/

/-- `String.prototype.toUpperCase` as a `String` transformer. -/
def jsUpperStr (s : String) : String :=
  String.mk (jsUpper s.data)

/-- `AIService.getCompanyInfo` (config-loader.js lines 1090-1098); the
website line is included only when `contact.website` is truthy. -/
def getCompanyInfo (svc : AIService) : String :=
  "🏢 *" ++ svc.companyName ++ "*\n\n" ++
  svc.companyDescription ++ "\n\n" ++
  "📅 *Jam Kerja:* " ++ svc.companyWorkingHours ++ "\n" ++
  "📧 *Email:* " ++ svc.companyEmail ++ "\n" ++
  "📞 *Telepon:* " ++ svc.companyPhone ++ "\n" ++
  (if svc.companyWebsite ≠ "" then "🌐 *Website:* " ++ svc.companyWebsite ++ "\n" else "") ++
  "\n*AI Assistant powered by " ++ jsUpperStr svc.provider ++ "*"

/-- The `/provider` reply template literal (config-loader.js line 987). -/
def providerInfoMessage (svc : AIService) : String :=
  "🤖 *AI Provider Information*\n\nCurrent Provider: *" ++ jsUpperStr svc.provider ++
  "*\nModel: *" ++ svc.model ++
  "*\n\nAvailable Providers:\n• Gemini (Default) - Google\x27s latest AI\n• OpenAI - GPT models\n• Claude - Anthropic\x27s AI assistant"

/-- `String.prototype.startsWith`. -/
def jsStartsWith (s pre : String) : Bool :=
  pre.data.isPrefixOf s.data

/-- `AIService.processSpecialCommands` (config-loader.js lines 932-992).
Returns `.ok (some reply, db)` when the lowercased, trimmed message is a
recognized command, `.ok (none, db)` when it is not (the AI path continues),
and `.error db` when a localized-message lookup would throw (impossible under
`WFService`).  Only the valid `/language <code>` branch and the `/reset`
branch mutate the store; `clearChatSession` touches only the in-memory Gemini
map, which is not part of the persisted store. -/
def processSpecialCommands (svc : AIService) (db : DB) (message phoneNumber : String)
    (now : Nat) : Except DB (Option String × DB) :=
  let command := jsLowerTrim message
  if jsStartsWith command "/language" then
    let parts := splitOnSpace command.data
    if parts.length = 1 then
      match getLocalizedMessage svc db phoneNumber "languageList" [] with
      | some r => .ok (some r, db)
      | none => .error db
    else
      let langCode := String.mk (parts.getD 1 [])
      match alGet svc.languages langCode with
      | some _ =>
        let db1 := setUserLanguage db phoneNumber langCode now
        match getLocalizedMessage svc db1 phoneNumber "languageChanged" [] with
        | some r => .ok (some r, db1)
        | none => .error db1
      | none =>
        match getLocalizedMessage svc db phoneNumber "languageList" [] with
        | some r => .ok (some r, db)
        | none => .error db
  else if command = "/help" then
    match getLocalizedMessage svc db phoneNumber "help" [] with
    | some r => .ok (some r, db)
    | none => .error db
  else if command = "/info" then .ok (some (getCompanyInfo svc), db)
  else if command = "/reset" then
    let db1 :=
      match getActiveSession db phoneNumber with
      | some session => closeSession db session.id now
      | none => db
    match getLocalizedMessage svc db1 phoneNumber "reset" [] with
    | some r => .ok (some r, db1)
    | none => .error db1
  else if command = "/status" then
    match getUser db phoneNumber with
    | some user =>
      let userLanguage := (getUserLanguage svc db phoneNumber none now).1
      let languageName :=
        match alGet svc.languages userLanguage with
        | some p => if p.name = "" then userLanguage else p.name
        | none => userLanguage
      match getLocalizedMessage svc db phoneNumber "status"
          [("name", user.name), ("messageCount", toString user.messageCount),
           ("lastSeen", toString user.lastSeen), ("language", languageName),
           ("provider", jsUpperStr svc.provider)] with
      | some r => .ok (some r, db)
      | none => .error db
    | none =>
      match getLocalizedMessage svc db phoneNumber "userNotFound" [] with
      | some r => .ok (some r, db)
      | none => .error db
  else if command = "/provider" then .ok (some (providerInfoMessage svc), db)
  else .ok (none, db)

/-- `AIService.getContextualResponse` (config-loader.js lines 1127-1142).
The outer `Option` models a thrown `TypeError` (never under `WFService`); the
inner `Option` models the `null` returned when no contextual reply applies.
A first-turn user (`messageCount === 1`) is answered with
`getLocalizedMessage(phoneNumber, 'welcomeMessage')` before any intent
dispatch; note the packs define the key `welcome`, not `welcomeMessage`. -/
def getContextualResponse (svc : AIService) (db : DB) (phoneNumber intent : String)
    (user : Option User) : Option (Option String) :=
  match user with
  | some u =>
    if u.messageCount = 1 then
      (getLocalizedMessage svc db phoneNumber "welcomeMessage" []).map some
    else
      if intent = "greeting" then
        (getLocalizedMessage svc db phoneNumber "greeting" []).map some
      else if intent = "gratitude" then
        (getLocalizedMessage svc db phoneNumber "gratitude" []).map some
      else some none
  | none =>
    if intent = "greeting" then
      (getLocalizedMessage svc db phoneNumber "greeting" []).map some
    else if intent = "gratitude" then
      (getLocalizedMessage svc db phoneNumber "gratitude" []).map some
    else some none

/-- `let user = await db.getUser(...); if (!user) user = await
db.createUser(...)` inside `generateResponse`. -/
def getOrCreateUser (db : DB) (phoneNumber : String) (now : Nat) : User × DB :=
  match getUser db phoneNumber with
  | some u => (u, db)
  | none => createUser db phoneNumber now

/-- A provider adapter: given the new user message and the fetched history,
either a completion text or a thrown error. -/
def Adapter : Type := String → List Message → Option String

/-- `AIService.generateResponse` (config-loader.js lines 686-740), the whole
turn.  Result `.ok (text, db)` is the reply handed back to the transport with
the final store; `.error db` models an unhandled rejection (the catch block
itself throwing — impossible under `WFService`).

Control flow of the try block: `processSpecialCommands` first; otherwise
resolve-or-create the user and fetch the history; then line 706 executes
`const userLanguage = await this.getUserLanguage(phoneNumber, message)` —
but no identifier `message` is bound anywhere in the enclosing scopes (the
parameter is `userMessage`), so the statement raises a `ReferenceError`.
Control therefore jumps to the catch block before the provider `switch`, the
two `saveMessage` calls, or the `updateUser` call can run; the `adapter` and
`conversationHistory` below are consequently dead.  The catch block returns
`getFallbackResponse(phoneNumber)`. -/
def generateResponse (svc : AIService) (adapter : Adapter)
    (userMessage phoneNumber : String) (now rand : Nat) (db : DB) :
    Except DB (String × DB) :=
  match processSpecialCommands svc db userMessage phoneNumber now with
  | .ok (some specialResponse, db1) => .ok (specialResponse, db1)
  | .ok (none, db1) =>
    let userAndDb := getOrCreateUser db1 phoneNumber now
    let db2 := userAndDb.2
    let conversationHistory := getConversationHistory db2 phoneNumber 10
    -- ReferenceError at line 706 (`message` is not defined) → catch block.
    let _unreachable := fun () => adapter userMessage conversationHistory
    match getFallbackResponse svc db2 phoneNumber rand with
    | some r => .ok (r, db2)
    | none => .error db2
  | .error dbE =>
    match getFallbackResponse svc dbE phoneNumber rand with
    | some r => .ok (r, dbE)
    | none => .error dbE

/-! ## `Helpers.sanitizeText` (src/unnamed/part_000, lines 73-81) -/

/-- An arbitrary JavaScript argument: a string, or anything else (number,
object, `null`, `undefined`, ...), which `typeof text !== 'string'` lumps
together. -/
inductive JsValue where
  | str (s : String)
  | other
  deriving DecidableEq

/-- `text.replace(/\s+/g, ' ')`: each maximal run of whitespace becomes one
space.  Fuel-structured so the definition reduces; the fuel is the text
length and every step consumes at least one character. -/
def collapseWsAux : Nat → List Char → List Char
  | _, [] => []
  | 0, t => t
  | Nat.succ fuel, c :: rest =>
    if isJsWs c then ' ' :: collapseWsAux fuel (rest.dropWhile isJsWs)
    else c :: collapseWsAux fuel rest

def collapseWs (t : List Char) : List Char :=
  collapseWsAux t.length t

/-- `Helpers.sanitizeText`: non-strings map to `''`; strings are trimmed,
stripped of control characters, whitespace-collapsed, and truncated to 4000
units. -/
def sanitizeText : JsValue → String
  | .other => ""
  | .str text =>
    let trimmed := jsTrim text.data
    let noCtl := trimmed.filter fun c => !isJsControl c
    let collapsed := collapseWs noCtl
    String.mk (collapsed.take 4000)

/-! ### Supporting lemmas about `dropWhile` and `collapseWs` -/

lemma dropWhile_length_le (p : Char → Bool) :
    ∀ l : List Char, (l.dropWhile p).length ≤ l.length := by
  intro l
  induction l with
  | nil => simp [List.dropWhile]
  | cons c r ih =>
    by_cases h : p c
    · simp only [List.dropWhile_cons, if_pos h, List.length_cons]
      omega
    · simp [List.dropWhile_cons, h]

lemma dropWhile_head_false (p : Char → Bool) :
    ∀ (l : List Char) (c : Char) (r : List Char), l.dropWhile p = c :: r → p c = false := by
  intro l
  induction l with
  | nil => intro c r h; simp [List.dropWhile] at h
  | cons a t ih =>
    intro c r h
    by_cases ha : p a
    · rw [List.dropWhile_cons, if_pos ha] at h
      exact ih c r h
    · rw [List.dropWhile_cons, if_neg ha] at h
      cases h
      simpa using ha

lemma mem_dropWhile (p : Char → Bool) :
    ∀ (l : List Char) (c : Char), c ∈ l.dropWhile p → c ∈ l := by
  intro l
  induction l with
  | nil => intro c h; simp [List.dropWhile] at h
  | cons a t ih =>
    intro c h
    by_cases ha : p a
    · rw [List.dropWhile_cons, if_pos ha] at h
      exact List.mem_cons_of_mem a (ih c h)
    · rwa [List.dropWhile_cons, if_neg ha] at h

lemma mem_collapseWsAux :
    ∀ (fuel : Nat) (l : List Char) (c : Char),
      c ∈ collapseWsAux fuel l → c = ' ' ∨ c ∈ l := by
  intro fuel
  induction fuel with
  | zero =>
    intro l c h
    cases l with
    | nil => simp [collapseWsAux] at h
    | cons a r => exact Or.inr (by simpa [collapseWsAux] using h)
  | succ f ih =>
    intro l c h
    cases l with
    | nil => simp [collapseWsAux] at h
    | cons a r =>
      by_cases ha : isJsWs a
      · rw [show collapseWsAux (f + 1) (a :: r) =
            ' ' :: collapseWsAux f (r.dropWhile isJsWs) from by
              simp [collapseWsAux, ha]] at h
        rcases List.mem_cons.mp h with h1 | h2
        · exact Or.inl h1
        · rcases ih _ c h2 with h3 | h4
          · exact Or.inl h3
          · exact Or.inr (List.mem_cons_of_mem a (mem_dropWhile _ _ _ h4))
      · rw [show collapseWsAux (f + 1) (a :: r) = a :: collapseWsAux f r from by
              simp [collapseWsAux, ha]] at h
        rcases List.mem_cons.mp h with h1 | h2
        · exact Or.inr (h1 ▸ List.mem_cons_self a r)
        · rcases ih _ c h2 with h3 | h4
          · exact Or.inl h3
          · exact Or.inr (List.mem_cons_of_mem a h4)

lemma head_collapseWsAux (fuel : Nat) (l : List Char) (c : Char)
    (hc : l.head? = some c) (hw : isJsWs c = false) :
    (collapseWsAux fuel l).head? = some c := by
  cases l with
  | nil => simp at hc
  | cons a r =>
    have hac : a = c := by simpa using hc
    subst hac
    cases fuel with
    | zero => simp [collapseWsAux]
    | succ f => simp [collapseWsAux, hw]

lemma chain_collapseWsAux :
    ∀ (fuel : Nat) (l : List Char), l.length ≤ fuel →
      List.Chain' (fun a b => (isJsWs a && isJsWs b) = false) (collapseWsAux fuel l) := by
  intro fuel
  induction fuel with
  | zero =>
    intro l hl
    have : l = [] := List.length_eq_zero.mp (Nat.le_zero.mp hl)
    subst this
    simp [collapseWsAux]
  | succ f ih =>
    intro l hl
    cases l with
    | nil => simp [collapseWsAux]
    | cons a r =>
      by_cases ha : isJsWs a
      · rw [show collapseWsAux (f + 1) (a :: r) =
            ' ' :: collapseWsAux f (r.dropWhile isJsWs) from by
              simp [collapseWsAux, ha]]
        rw [List.chain'_cons']
        constructor
        · intro b hb
          cases hd : r.dropWhile isJsWs with
          | nil => rw [hd] at hb; simp [collapseWsAux] at hb
          | cons d r2 =>
            have hdw : isJsWs d = false := dropWhile_head_false isJsWs r d r2 hd
            have : (collapseWsAux f (r.dropWhile isJsWs)).head? = some d := by
              rw [hd]; exact head_collapseWsAux f (d :: r2) d rfl hdw
            rw [this] at hb
            cases hb
            simp [hdw]
        · exact ih _ (le_trans (dropWhile_length_le _ _)
            (Nat.le_of_succ_le_succ (by simpa using hl)))
      · rw [show collapseWsAux (f + 1) (a :: r) = a :: collapseWsAux f r from by
              simp [collapseWsAux, ha]]
        rw [List.chain'_cons']
        constructor
        · intro b _
          simp [ha]
        · exact ih r (by simpa using Nat.le_of_succ_le_succ (by simpa using hl))

/-! ## Theorems -/

/-- `detectLanguage` written without its `let` bindings. -/
lemma detectLanguage_eq (text : String) :
    detectLanguage text =
      if text = "" then none
      else if (jsTrim text.data).length < 3 then none
      else if englishScoreOf (cleanTextOf text) > indonesianScoreOf (cleanTextOf text) ∧
              englishScoreOf (cleanTextOf text) > 3 then some "en"
      else if indonesianScoreOf (cleanTextOf text) > englishScoreOf (cleanTextOf text) ∧
              indonesianScoreOf (cleanTextOf text) > 3 then some "id"
      else none := rfl

/-- C6: `detectLanguage` is a pure function of the text that returns a code
only when that language's score strictly exceeds the other's and exceeds the
absolute floor 3; inputs whose trimmed length is below 3 (and the empty
string), tied scores, and sub-threshold scores all yield the indeterminate
result `none`, never a default. -/
theorem detectLanguage_strict_threshold (text : String) :
    ((text = "" ∨ (jsTrim text.data).length < 3) → detectLanguage text = none)
  ∧ (englishScoreOf (cleanTextOf text) = indonesianScoreOf (cleanTextOf text) →
      detectLanguage text = none)
  ∧ (∀ code, detectLanguage text = some code ↔
      (text ≠ "" ∧ 3 ≤ (jsTrim text.data).length ∧
        ((code = "en" ∧
            indonesianScoreOf (cleanTextOf text) < englishScoreOf (cleanTextOf text) ∧
            3 < englishScoreOf (cleanTextOf text)) ∨
         (code = "id" ∧
            englishScoreOf (cleanTextOf text) < indonesianScoreOf (cleanTextOf text) ∧
            3 < indonesianScoreOf (cleanTextOf text))))) := by
  refine ⟨?_, ?_, ?_⟩
  · rintro (h | h) <;> simp [detectLanguage_eq, h]
  · intro heq
    rw [detectLanguage_eq]
    split_ifs with h0 h1 hen hid
    · rfl
    · rfl
    · exact absurd hen.1 (by omega)
    · exact absurd hid.1 (by omega)
    · rfl
  · intro code
    rw [detectLanguage_eq]
    split_ifs with h0 h1 hen hid
    · simp [h0]
    · constructor
      · intro h; cases h
      · rintro ⟨-, h3, -⟩
        exact ((by omega : False)).elim
    · constructor
      · intro h
        refine ⟨h0, by omega, Or.inl ⟨?_, hen.1, hen.2⟩⟩
        cases h; rfl
      · rintro ⟨-, -, (⟨hc, _, _⟩ | ⟨hc, hlt, _⟩)⟩
        · rw [hc]
        · exact absurd hen.1 (by omega)
    · constructor
      · intro h
        refine ⟨h0, by omega, Or.inr ⟨?_, hid.1, hid.2⟩⟩
        cases h; rfl
      · rintro ⟨-, -, (⟨hc, hlt, _⟩ | ⟨hc, _, _⟩)⟩
        · exact absurd hid.1 (by omega)
        · rw [hc]
    · constructor
      · intro h; cases h
      · rintro ⟨-, -, (⟨hc, hlt, hgt⟩ | ⟨hc, hlt, hgt⟩)⟩
        · exact absurd (And.intro hlt hgt) hen
        · exact absurd (And.intro hlt hgt) hid

/-- Witness for C6: the repo's own edge case `"Hi"` (trimmed length 2) is
indeterminate, and the marker-rich `"halo apa kabar"` is detected as `id`. -/
theorem detectLanguage_strict_threshold_witness :
    detectLanguage "Hi" = none ∧ detectLanguage "halo apa kabar" = some "id" :=
  ⟨(detectLanguage_strict_threshold "Hi").1 (Or.inr (by decide)),
   ((detectLanguage_strict_threshold "halo apa kabar").2.2 "id").mpr (by decide)⟩

/-- C10: `sanitizeText` is total over arbitrary input: non-strings map to the
empty string, and every result is at most 4000 units long, contains no
control character, and contains no two consecutive whitespace characters. -/
theorem sanitizeText_safe (v : JsValue) :
    (sanitizeText v).length ≤ 4000
  ∧ (∀ c ∈ (sanitizeText v).data, isJsControl c = false)
  ∧ List.Chain' (fun a b => (isJsWs a && isJsWs b) = false) (sanitizeText v).data
  ∧ (v = JsValue.other → sanitizeText v = "") := by
  cases v with
  | other =>
    refine ⟨by simp [sanitizeText], ?_, ?_, fun _ => rfl⟩
    · intro c hc
      simp [sanitizeText] at hc
    · simp [sanitizeText]
  | str text =>
    have hdata : (sanitizeText (JsValue.str text)).data =
        (collapseWs ((jsTrim text.data).filter fun c => !isJsControl c)).take 4000 := rfl
    refine ⟨?_, ?_, ?_, ?_⟩
    · have hlen : (sanitizeText (JsValue.str text)).length =
          ((collapseWs ((jsTrim text.data).filter fun c => !isJsControl c)).take 4000).length := rfl
      rw [hlen, List.length_take]
      exact min_le_left _ _
    · intro c hc
      rw [hdata] at hc
      have hc2 := List.take_subset _ _ hc
      rcases mem_collapseWsAux _ _ _ hc2 with h1 | h2
      · subst h1; decide
      · simpa using (List.mem_filter.mp h2).2
    · rw [hdata]
      exact (chain_collapseWsAux _ _ le_rfl).take 4000
    · intro h; cases h

/-- Witness for C10: a non-string yields `''`, and a concrete string input
satisfies the length bound. -/
theorem sanitizeText_safe_witness :
    sanitizeText JsValue.other = "" ∧ (sanitizeText (JsValue.str "ab   cd\x01e")).length ≤ 4000 :=
  ⟨(sanitizeText_safe JsValue.other).2.2.2 rfl,
   (sanitizeText_safe (JsValue.str "ab   cd\x01e")).1⟩

/-! ### Association-list lemmas -/

lemma alGet_alSet_self {α : Type} (l : List (String × α)) (k : String) (v : α) :
    alGet (alSet l k v) k = some v := by
  induction l with
  | nil => simp [alGet, alSet]
  | cons p rest ih =>
    by_cases h : p.1 = k
    · simp [alGet, alSet, h]
    · simp [alGet, alSet, h, ih]

lemma alGet_alSet_ne {α : Type} (l : List (String × α)) (k k' : String) (v : α)
    (h : k ≠ k') : alGet (alSet l k v) k' = alGet l k' := by
  induction l with
  | nil => simp [alGet, alSet, h]
  | cons p rest ih =>
    by_cases hp : p.1 = k
    · simp [alGet, alSet, hp, h]
    · by_cases hp' : p.1 = k'
      · simp [alGet, alSet, hp, hp', Ne.symm h]
      · simp [alGet, alSet, hp, hp', ih]

/-! ### `saveMessage` bookkeeping -/

/-- One `saveMessage` call on a user that exists: the message is appended to
the conversation and `messageCount` is incremented — regardless of the
direction flag. -/
lemma saveMessage_existing_user (db : DB) (phone msg : String) (dir : Bool)
    (now : Nat) (u : User) (hu : getUser db phone = some u) :
    getUser (saveMessage db phone msg dir now).2 phone =
      some { u with messageCount := u.messageCount + 1, lastSeen := now } ∧
    messagesOf (saveMessage db phone msg dir now).2 phone =
      messagesOf db phone ++
        [{ id := toString now, content := msg, isFromUser := dir, timestamp := now }] := by
  unfold getUser at hu ⊢
  constructor
  · show alGet (match alGet db.users phone with
      | some u => alSet db.users phone
          { u with messageCount := u.messageCount + 1, lastSeen := now }
      | none => db.users) phone = _
    rw [hu]
    exact alGet_alSet_self _ _ _
  · show (match alGet (alSet db.conversations phone _) phone with
      | some conv => conv.messages
      | none => []) = _
    rw [alGet_alSet_self]
    unfold messagesOf
    cases hc : alGet db.conversations phone <;> simp [hc]

/-- A sequence of `saveMessage` calls for one user, in order. -/
def applySaves (phone : String) (db : DB) (ops : List (String × Bool × Nat)) : DB :=
  ops.foldl (fun d op => (saveMessage d phone op.1 op.2.1 op.2.2).2) db

lemma applySaves_cons (phone : String) (db : DB) (op : String × Bool × Nat)
    (ops : List (String × Bool × Nat)) :
    applySaves phone db (op :: ops) =
      applySaves phone (saveMessage db phone op.1 op.2.1 op.2.2).2 ops := rfl

/-- C2 counterexample: persist one inbound user message and one assistant
reply (the exact pair a successful turn appends); `messageCount` becomes 2
while only 1 persisted message has `isFromUser = true`, so `messageCount`
does **not** equal the number of from-user messages. -/
theorem messageCount_counterexample :
    ((getUser (applySaves "p" (createUser dbEmpty "p" 0).2
        [("hi", true, 1), ("reply", false, 2)]) "p").map User.messageCount = some 2) ∧
    ((messagesOf (applySaves "p" (createUser dbEmpty "p" 0).2
        [("hi", true, 1), ("reply", false, 2)]) "p").filter
          (fun m => m.isFromUser)).length = 1 := by decide

/-- C2 amended: after any sequence of persisted messages for an existing,
in-sync user, `messageCount` equals the number of **all** persisted messages
for that user — assistant-authored ones included — and grows by one per
`saveMessage` call of either direction. -/
theorem messageCount_counts_both_directions (phone : String) (db : DB)
    (ops : List (String × Bool × Nat)) (u : User)
    (hu : getUser db phone = some u)
    (hsync : u.messageCount = (messagesOf db phone).length) :
    ∃ u2, getUser (applySaves phone db ops) phone = some u2 ∧
      u2.messageCount = (messagesOf (applySaves phone db ops) phone).length ∧
      (messagesOf (applySaves phone db ops) phone).length =
        (messagesOf db phone).length + ops.length := by
  induction ops generalizing db u with
  | nil => exact ⟨u, hu, by simpa [applySaves] using hsync, by simp [applySaves]⟩
  | cons op rest ih =>
    obtain ⟨hgu, hm⟩ := saveMessage_existing_user db phone op.1 op.2.1 op.2.2 u hu
    have hsync1 : u.messageCount + 1 =
        (messagesOf (saveMessage db phone op.1 op.2.1 op.2.2).2 phone).length := by
      rw [hm]
      simp [hsync]
    obtain ⟨u2, h1, h2, h3⟩ := ih _ _ hgu (by simpa using hsync1)
    refine ⟨u2, ?_, h2, ?_⟩
    · rw [applySaves_cons]
      exact h1
    · rw [applySaves_cons, h3, hm]
      simp
      omega

/-- Witness for C2 amended: starting from a freshly created user, two
persisted messages (one per direction) leave `messageCount = 2 =` total
history length. -/
theorem messageCount_counts_both_directions_witness :
    ∃ u2, getUser (applySaves "p" (createUser dbEmpty "p" 0).2
        [("hi", true, 1), ("reply", false, 2)]) "p" = some u2 ∧
      u2.messageCount = (messagesOf (applySaves "p" (createUser dbEmpty "p" 0).2
        [("hi", true, 1), ("reply", false, 2)]) "p").length ∧
      (messagesOf (applySaves "p" (createUser dbEmpty "p" 0).2
        [("hi", true, 1), ("reply", false, 2)]) "p").length =
      (messagesOf (createUser dbEmpty "p" 0).2 "p").length + 2 :=
  messageCount_counts_both_directions "p" (createUser dbEmpty "p" 0).2
    [("hi", true, 1), ("reply", false, 2)]
    { phoneNumber := "p", name := "Unknown", createdAt := 0, lastSeen := 0,
      messageCount := 0, prefLanguage := none } rfl rfl

/-! ### Sessions (C7) -/

/-- C7 counterexample: two `createSession` calls for the same user (at
distinct timestamps, hence distinct ids) leave **two** sessions with
`isActive = true` for that user — creating a session does not invalidate the
previous one. -/
theorem createSession_two_active :
    (((createSession ((createSession dbEmpty "p" 1).2) "p" 2).2.sessions.map
        Prod.snd).filter fun s => s.phoneNumber = "p" ∧ s.isActive = true).length = 2 := by
  decide

/-- C7 amended: `createSession` only adds a fresh record with
`isActive = true`; every existing session record — active or not — is
preserved unchanged, so a user can hold several simultaneously active
sessions, and only `closeSession` clears the flag. -/
theorem createSession_preserves_existing (db : DB) (phone : String) (now : Nat)
    (sid : String) (s : Session) (hs : alGet db.sessions sid = some s)
    (hne : sid ≠ phone ++ "_" ++ toString now) :
    alGet ((createSession db phone now).2).sessions sid = some s ∧
    alGet ((createSession db phone now).2).sessions (phone ++ "_" ++ toString now) =
      some { id := phone ++ "_" ++ toString now, phoneNumber := phone,
             createdAt := now, lastActivity := now, isActive := true } := by
  constructor
  · show alGet (alSet db.sessions _ _) sid = some s
    rw [alGet_alSet_ne _ _ _ _ (Ne.symm hne)]
    exact hs
  · exact alGet_alSet_self _ _ _

/-- Witness for C7 amended: the session created at time 1 survives, still
active, the creation of a second session at time 2. -/
theorem createSession_preserves_existing_witness :
    alGet ((createSession ((createSession dbEmpty "p" 1).2) "p" 2).2).sessions "p_1" =
      some { id := "p_1", phoneNumber := "p", createdAt := 1, lastActivity := 1,
             isActive := true } ∧
    alGet ((createSession ((createSession dbEmpty "p" 1).2) "p" 2).2).sessions
        ("p" ++ "_" ++ toString 2) =
      some { id := "p" ++ "_" ++ toString 2, phoneNumber := "p", createdAt := 2,
             lastActivity := 2, isActive := true } :=
  createSession_preserves_existing ((createSession dbEmpty "p" 1).2) "p" 2 "p_1"
    { id := "p_1", phoneNumber := "p", createdAt := 1, lastActivity := 1,
      isActive := true } (by decide) (by decide)

/-! ### Language-pack well-formedness lemmas -/

lemma pack_mem_languagesCfg (l : String) (p : LangPack)
    (h : alGet languagesCfg l = some p) : p = idPack ∨ p = enPack := by
  simp only [languagesCfg, alGet] at h
  split_ifs at h
  · exact Or.inl (Option.some.inj h).symm
  · exact Or.inr (Option.some.inj h).symm

lemma resolvedPack_WF (svc : AIService) (db : DB) (phone : String)
    (hwf : WFService svc) :
    ∃ p, resolvedPack svc db phone = some p ∧ (p = idPack ∨ p = enPack) := by
  unfold resolvedPack
  cases hl : alGet svc.languages (resolvedLanguage svc db phone) with
  | some p => exact ⟨p, rfl, pack_mem_languagesCfg _ p (hwf.1 ▸ hl)⟩
  | none =>
    rcases hwf.2 with hd | hd
    · exact ⟨idPack, by rw [hwf.1, hd]; rfl, Or.inl rfl⟩
    · exact ⟨enPack, by rw [hwf.1, hd]; rfl, Or.inr rfl⟩

lemma pack_has_fallback (p : LangPack) (hp : p = idPack ∨ p = enPack) :
    ∃ fb, alGet p.messages "fallback" = some fb := by
  rcases hp with h | h <;> subst h
  · exact ⟨_, rfl⟩
  · exact ⟨_, rfl⟩

/-- Under a deployment-shaped configuration, `getLocalizedMessage` always
produces a string (no `TypeError` path is reachable). -/
lemma getLocalizedMessage_WF (svc : AIService) (db : DB) (phone key : String)
    (ph : List (String × String)) (hwf : WFService svc) :
    ∃ r, getLocalizedMessage svc db phone key ph = some r := by
  obtain ⟨p, hp, hmem⟩ := resolvedPack_WF svc db phone hwf
  obtain ⟨fb, hfb⟩ := pack_has_fallback p hmem
  have htm : ∃ tmpl,
      jsOrStr (alGet p.messages key) (alGet p.messages "fallback") = some tmpl := by
    cases hm : alGet p.messages key with
    | none => exact ⟨fb, by simp [jsOrStr, hfb]⟩
    | some s =>
      by_cases hs : s = ""
      · exact ⟨fb, by simp [jsOrStr, hm, hs, hfb]⟩
      · exact ⟨s, by simp [jsOrStr, hm, hs]⟩
  obtain ⟨tmpl, htmpl⟩ := htm
  refine ⟨substAll (mergedPlaceholders svc ph) tmpl, ?_⟩
  unfold getLocalizedMessage
  rw [hp, Option.some_bind, htmpl, Option.map_some']

/-! ### C5: automatic language detection and persistence -/

/-- C5 counterexample: a user with no stored preference sends
`"halo apa kabar"`; detection confidently returns `id`, yet — because `id`
equals the system default language — `getUserLanguage` writes **no**
preference (the store is returned unchanged and `preferences.language` stays
unset), contradicting the claim that every confident detection is
persisted. -/
theorem getUserLanguage_counterexample :
    detectLanguage "halo apa kabar" = some "id" ∧
    getUserLanguage svc0 (createUser dbEmpty "628" 0).2 "628"
        (some "halo apa kabar") 5 = ("id", (createUser dbEmpty "628" 0).2) ∧
    ((getUser (createUser dbEmpty "628" 0).2 "628").map User.prefLanguage =
        some none) := by decide

/-- C5 amended: for a user without a truthy stored preference, a confident
detection is persisted (and returned) **only when the detected code differs
from the system default language**; when detection is indeterminate or
returns the default code, the default is used and nothing is written. -/
theorem getUserLanguage_detection (svc : AIService) (db : DB)
    (phone text : String) (now : Nat) (u : User)
    (hu : getUser db phone = some u)
    (hpref : jsTruthyStr u.prefLanguage = false) :
    (∀ code, detectLanguage text = some code → code ≠ svc.defaultLanguage →
        getUserLanguage svc db phone (some text) now =
          (code, setUserLanguage db phone code now) ∧
        (getUser (setUserLanguage db phone code now) phone).map User.prefLanguage =
          some (some code)) ∧
    ((detectLanguage text = none ∨ detectLanguage text = some svc.defaultLanguage) →
        getUserLanguage svc db phone (some text) now = (svc.defaultLanguage, db)) := by
  have hstored : (getUser db phone).bind User.prefLanguage = u.prefLanguage := by
    rw [hu]; rfl
  constructor
  · intro code hdet hne
    have ht : ¬ text = "" := by
      intro h
      rw [h] at hdet
      cases hdet
    constructor
    · simp [getUserLanguage, hstored, hpref, ht, hdet, hne]
    · unfold setUserLanguage
      rw [hu]
      unfold getUser
      rw [alGet_alSet_self]
      rfl
  · intro h
    by_cases ht : text = ""
    · simp [getUserLanguage, hstored, hpref, ht]
    · rcases h with hdet | hdet <;>
        simp [getUserLanguage, hstored, hpref, ht, hdet]

/-- Witness for C5 amended: with default language `id`, the English text
`"hello, can you help me please"` is detected as `en` and the preference is
persisted; separately, the detected-default case is exercised by the
counterexample above. -/
theorem getUserLanguage_detection_witness :
    getUserLanguage svc0 (createUser dbEmpty "628" 0).2 "628"
        (some "hello, can you help me please") 5 =
      ("en", setUserLanguage (createUser dbEmpty "628" 0).2 "628" "en" 5) ∧
    (getUser (setUserLanguage (createUser dbEmpty "628" 0).2 "628" "en" 5)
        "628").map User.prefLanguage = some (some "en") :=
  (getUserLanguage_detection svc0 (createUser dbEmpty "628" 0).2 "628"
      "hello, can you help me please" 5
      { phoneNumber := "628", name := "Unknown", createdAt := 0, lastSeen := 0,
        messageCount := 0, prefLanguage := none } rfl rfl).1
    "en" (by decide) (by decide)

/-! ### C8: `/language` without a valid argument -/

/-- C8: `/language` with no argument, or with an argument that is not a
configured language code, returns the localized language-options list and
returns the store unchanged; since the store is unchanged and the function
is deterministic, any number of repetitions produces the same reply. -/
theorem languageCommand_invalid_noop (svc : AIService) (db : DB)
    (message phoneNumber : String) (now : Nat) (hwf : WFService svc)
    (hcmd : jsStartsWith (jsLowerTrim message) "/language" = true)
    (hbad : (splitOnSpace (jsLowerTrim message).data).length = 1 ∨
      alGet svc.languages
        (String.mk ((splitOnSpace (jsLowerTrim message).data).getD 1 [])) = none) :
    ∃ r, getLocalizedMessage svc db phoneNumber "languageList" [] = some r ∧
      processSpecialCommands svc db message phoneNumber now = .ok (some r, db) := by
  obtain ⟨r, hr⟩ := getLocalizedMessage_WF svc db phoneNumber "languageList" [] hwf
  refine ⟨r, hr, ?_⟩
  by_cases hlen : (splitOnSpace (jsLowerTrim message).data).length = 1
  · simp [processSpecialCommands, hcmd, hlen, hr]
  · have hnone : alGet svc.languages
        (String.mk ((splitOnSpace (jsLowerTrim message).data).getD 1 [])) = none := by
      rcases hbad with h | h
      · exact absurd h hlen
      · exact h
    have hnone2 : alGet svc.languages
        (String.mk (((splitOnSpace (jsLowerTrim message).data)[1]?).getD [])) = none := by
      simpa [List.getD] using hnone
    simp [processSpecialCommands, hcmd, hlen, hnone, hnone2, hr]

/-- Witness for C8: the concrete invalid command `/language xx` on the empty
store. -/
theorem languageCommand_invalid_noop_witness :
    ∃ r, getLocalizedMessage svc0 dbEmpty "628" "languageList" [] = some r ∧
      processSpecialCommands svc0 dbEmpty "/language xx" "628" 3 = .ok (some r, dbEmpty) :=
  languageCommand_invalid_noop svc0 dbEmpty "/language xx" "628" 3 (by decide)
    (by decide) (Or.inr (by decide))

/-! ### C9: missing template keys fall back to the localized fallback -/

/-- C9: when the resolved language pack has no template under the requested
key, `getLocalizedMessage` returns that pack's `fallback` template with the
placeholder substitution applied (each supplied placeholder, `companyName`
included, replaced at every occurrence) — it neither fails nor echoes the
raw key. -/
theorem getLocalizedMessage_missing_key (svc : AIService) (db : DB)
    (phone key : String) (ph : List (String × String)) (hwf : WFService svc)
    (p : LangPack) (hp : resolvedPack svc db phone = some p)
    (hmiss : alGet p.messages key = none) :
    ∃ fb, alGet p.messages "fallback" = some fb ∧
      getLocalizedMessage svc db phone key ph =
        some (substAll (mergedPlaceholders svc ph) fb) := by
  have hmem : p = idPack ∨ p = enPack := by
    obtain ⟨p2, hp2, hmem2⟩ := resolvedPack_WF svc db phone hwf
    rw [hp] at hp2
    exact (Option.some.inj hp2) ▸ hmem2
  obtain ⟨fb, hfb⟩ := pack_has_fallback p hmem
  refine ⟨fb, hfb, ?_⟩
  unfold getLocalizedMessage
  rw [hp, Option.some_bind,
    show jsOrStr (alGet p.messages key) (alGet p.messages "fallback") = some fb from by
      rw [hmiss, hfb]; rfl,
    Option.map_some']

/-- Witness for C9: the key `welcomeMessage` is absent from the `id` pack, so
the localized fallback template comes back, substituted. -/
theorem getLocalizedMessage_missing_key_witness :
    ∃ fb, alGet idPack.messages "fallback" = some fb ∧
      getLocalizedMessage svc0 dbEmpty "628" "welcomeMessage" [] =
        some (substAll (mergedPlaceholders svc0 []) fb) :=
  getLocalizedMessage_missing_key svc0 dbEmpty "628" "welcomeMessage" []
    (by decide) idPack (by decide) (by decide)

/-! ### C4: the first-message welcome template (code bug) -/

/-- C4, evaluated at the failing input: a user whose `messageCount` is 1 is
answered through `getLocalizedMessage(phone, 'welcomeMessage')`, but the
packs define the key `welcome`, not `welcomeMessage`; the lookup misses and
the user receives the **fallback** template instead of the welcome template.
The conjuncts exhibit the key mismatch, the actual reply, and that the reply
differs from the welcome template the spec promises. -/
theorem firstMessage_welcome_bug :
    alGet idPack.messages "welcomeMessage" = none ∧
    (alGet idPack.messages "welcome").isSome = true ∧
    getContextualResponse svc0 ((createUser dbEmpty "628123" 1).2) "628123"
        "greeting"
        (some { phoneNumber := "628123", name := "Unknown", createdAt := 1,
                lastSeen := 1, messageCount := 1, prefLanguage := none }) =
      some (some (substAll (mergedPlaceholders svc0 [])
        ((alGet idPack.messages "fallback").getD ""))) ∧
    ((alGet idPack.messages "fallback").getD "") ≠
      ((alGet idPack.messages "welcome").getD "") := by decide

instance {ε α : Type} [DecidableEq ε] [DecidableEq α] : DecidableEq (Except ε α)
  | .ok a, .ok b =>
    if h : a = b then .isTrue (by rw [h]) else .isFalse (by intro hh; cases hh; exact h rfl)
  | .ok _, .error _ => .isFalse (by intro hh; cases hh)
  | .error _, .ok _ => .isFalse (by intro hh; cases hh)
  | .error e, .error f =>
    if h : e = f then .isTrue (by rw [h]) else .isFalse (by intro hh; cases hh; exact h rfl)

/-! ### C3: the successful AI turn is unreachable (code bug) -/

/-- C3, evaluated at the failing input: a plain non-command message with an
adapter that would succeed.  Because line 706 of `generateResponse` reads the
unbound identifier `message` (the parameter is `userMessage`), the turn
raises a `ReferenceError` before the provider dispatch: the reply is the
localized fallback — not the adapter's completion — and neither the inbound
message nor any assistant message is persisted (`totalMessages` stays 0). -/
theorem generateResponse_success_path_unreachable :
    generateResponse svc0 (fun _ _ => some "Sure, I can help with that.")
        "I want to buy this product" "628555" 7 0 dbEmpty =
      .ok (substAll (mergedPlaceholders svc0 [])
             ((alGet idPack.messages "fallback").getD ""),
           (createUser dbEmpty "628555" 7).2) ∧
    messagesOf (createUser dbEmpty "628555" 7).2 "628555" = [] ∧
    (createUser dbEmpty "628555" 7).2.analytics.totalMessages = 0 ∧
    substAll (mergedPlaceholders svc0 [])
        ((alGet idPack.messages "fallback").getD "") ≠
      "Sure, I can help with that." := by decide

/-! ### C1: failing turns return a fallback but persist nothing -/

/-- C1 counterexample: a failing turn (the adapter is modelled as throwing;
in fact the `ReferenceError` at line 706 aborts the try-block even earlier).
The user receives the localized fallback and no assistant message is stored —
but, contrary to the claim, the inbound user message is **not** persisted
either: the conversation store stays empty, because both `saveMessage` calls
sit after the generation step inside the same try-block. -/
theorem fallbackTurn_counterexample :
    generateResponse svc0 (fun _ _ => none) "hello there my friend" "628777" 5 0 dbEmpty =
      .ok (substAll (mergedPlaceholders svc0 [])
             ((alGet idPack.messages "fallback").getD ""),
           (createUser dbEmpty "628777" 5).2) ∧
    messagesOf (createUser dbEmpty "628777" 5).2 "628777" = [] := by decide

/-- C1 amended: on every non-command turn (all of which fail), the user gets
the localized fallback reply, the only store mutation is the possible user
creation, and **no message at all** — neither assistant-authored nor the
inbound user message — is appended to the history. -/
theorem fallbackTurn_no_persistence (svc : AIService) (adapter : Adapter)
    (userMessage phoneNumber : String) (now rand : Nat) (db : DB)
    (hwf : WFService svc) (hphone : phoneNumber ≠ "")
    (hcmd : processSpecialCommands svc db userMessage phoneNumber now = .ok (none, db)) :
    ∃ r, getFallbackResponse svc (getOrCreateUser db phoneNumber now).2 phoneNumber rand
        = some r ∧
      generateResponse svc adapter userMessage phoneNumber now rand db =
        .ok (r, (getOrCreateUser db phoneNumber now).2) ∧
      messagesOf (getOrCreateUser db phoneNumber now).2 phoneNumber =
        messagesOf db phoneNumber := by
  obtain ⟨r, hr⟩ : ∃ r,
      getFallbackResponse svc (getOrCreateUser db phoneNumber now).2 phoneNumber rand
        = some r := by
    unfold getFallbackResponse
    rw [if_pos hphone]
    exact getLocalizedMessage_WF svc _ phoneNumber "fallback" [] hwf
  refine ⟨r, hr, ?_, ?_⟩
  · simp only [generateResponse, hcmd, hr]
  · unfold getOrCreateUser messagesOf
    cases h : getUser db phoneNumber <;> simp [h, createUser]

/-- Witness for C1 amended: the concrete non-command turn
`"thanks a lot friend"` from a fresh user. -/
theorem fallbackTurn_no_persistence_witness :
    ∃ r, getFallbackResponse svc0 (getOrCreateUser dbEmpty "628001" 3).2 "628001" 0
        = some r ∧
      generateResponse svc0 (fun _ _ => none) "thanks a lot friend" "628001" 3 0 dbEmpty =
        .ok (r, (getOrCreateUser dbEmpty "628001" 3).2) ∧
      messagesOf (getOrCreateUser dbEmpty "628001" 3).2 "628001" =
        messagesOf dbEmpty "628001" :=
  fallbackTurn_no_persistence svc0 (fun _ _ => none) "thanks a lot friend" "628001"
    3 0 dbEmpty (by decide) (by decide) (by decide)

end ACAI
